import Mathlib

/-!
Verification development for the `heatmiser_wifi` library
(`src/heatmiser_wifi/heatmiser_wifi.py`).

The Python source is shallowly embedded below.  Byte buffers are `List Nat`
(each element intended `< 256`, as produced by Python `bytearray`), machine
integers are `Nat`/`Int` with explicit masks, and every Python `raise`
becomes an `Except HmError` error value.  Out-of-range list indexing
(Python `IndexError`) is modelled by the `indexError` variant; an access to
an unassigned local variable (Python `NameError`, possible in
`Heatmiser.get_info` for unknown model bytes in 7-day mode) by `nameError`.

The decoder `getInfo` embeds `Heatmiser.get_info`, the writer `setValue`
embeds `Heatmiser.set_value`, `setClock` embeds `Heatmiser.set_clock`,
`receiveDcb` embeds `HeatmiserTransport._receive_dcb`, and
`sendReadRequestFrame` builds the frame of
`HeatmiserTransport._send_read_request`.  Python `OrderedDict` values are
modelled as ordered association lists (`Info`); `OrderedDict` assignment,
which updates in place when the key already exists and appends otherwise,
is modelled by plain append where the key is provably fresh and by `setK`
where the source overwrites an existing key.
-/

namespace HeatmiserWifi

/-- Error kinds for the library, one per distinct `raise` site / failure mode
of the Python source, named following the specification (§7). -/
inductive HmError where
  | checksumMismatch
  | unexpectedFrameType
  | frameLengthMismatch
  | wrongPin
  | dcbLengthMismatch
  | recordTooShort
  | unknownField
  | invalidFieldValue
  | indexError
  | valueError
  | typeError
  | nameError
deriving DecidableEq, Repr

/-- Lookup table `CRC16.CRC16_LookupHigh` of the source. -/
def CRC16_LookupHigh : List Nat :=
  [0x00, 0x10, 0x20, 0x30, 0x40, 0x50, 0x60, 0x70,
   0x81, 0x91, 0xA1, 0xB1, 0xC1, 0xD1, 0xE1, 0xF1]

/-- Lookup table `CRC16.CRC16_LookupLow` of the source. -/
def CRC16_LookupLow : List Nat :=
  [0x00, 0x21, 0x42, 0x63, 0x84, 0xA5, 0xC6, 0xE7,
   0x08, 0x29, 0x4A, 0x6B, 0x8C, 0xAD, 0xCE, 0xEF]

/-- The two 8-bit accumulator halves of the CRC16 computation
(`CRC16.CRC16_High` / `CRC16.CRC16_Low`). -/
structure CrcState where
  high : Nat
  low : Nat
deriving DecidableEq, Repr

/-- Embeds `CRC16._CRC16_Update4Bits`: one nibble update of the accumulator. -/
def crcUpdate4 (s : CrcState) (val : Nat) : CrcState :=
  let t := (s.high >>> 4) &&& 0xff
  let t := (t ^^^ val) &&& 0xff
  let high := ((s.high <<< 4) ||| (s.low >>> 4)) &&& 0xff
  let low := (s.low <<< 4) &&& 0xff
  { high := (high ^^^ CRC16_LookupHigh.getD t 0) &&& 0xff,
    low := (low ^^^ CRC16_LookupLow.getD t 0) &&& 0xff }

/-- Embeds `CRC16._CRC16_Update`: high nibble first, then low nibble. -/
def crcUpdateByte (s : CrcState) (val : Nat) : CrcState :=
  crcUpdate4 (crcUpdate4 s ((val >>> 4) &&& 0x0f)) (val &&& 0x0f)

/-- Embeds `CRC16.CRC16`: the accumulator is reset to `0xff`/`0xff` at the
start of every call, then updated once per input byte; the result is
returned as the pair `(low, high)`. -/
def CRC16 (bs : List Nat) : Nat × Nat :=
  let s := bs.foldl crcUpdateByte { high := 0xff, low := 0xff }
  (s.low, s.high)

/-- Embeds the frame construction of `HeatmiserTransport._send_read_request`:
a 9-byte header `[0x93, lenLow, lenHigh, pinLow, pinHigh, startLow,
startHigh, lengthLow, lengthHigh]` followed by the CRC16 over the header as
`(low, high)`. -/
def sendReadRequestFrame (pin dcbStart dcbLength : Nat) : List Nat :=
  let base := [0x93, 0x0b, 0x00,
               pin &&& 0xff, pin >>> 8,
               dcbStart &&& 0xff, dcbStart >>> 8,
               dcbLength &&& 0xff, dcbLength >>> 8]
  let crc := CRC16 base
  base ++ [crc.1, crc.2]

/-- Embeds `HeatmiserTransport._receive_dcb`.  The two final bytes are popped
as the received checksum (the last byte is the high byte), the checksum is
recomputed over the remainder, then the frame head, frame length, PIN
signal (`dcbLength = 0`) and DCB length are validated in the order of the
source; on success the DCB start address and the payload from offset 7 are
returned.  Accesses the source performs on a frame that is too short to
contain the indexed byte are modelled as `indexError`. -/
def receiveDcb (data : List Nat) : Except HmError (Nat × List Nat) :=
  if data.length < 2 then .error .indexError else
  let receivedHigh := data.getD (data.length - 1) 0
  let receivedLow := data.getD (data.length - 2) 0
  let frame := data.take (data.length - 2)
  let crc := CRC16 frame
  if ¬(receivedHigh = crc.2 ∧ receivedLow = crc.1) then .error .checksumMismatch
  else if frame.length < 1 then .error .indexError
  else if frame.getD 0 0 ≠ 0x94 then .error .unexpectedFrameType
  else if frame.length < 3 then .error .indexError
  else
    let frameLength := (frame.getD 2 0) <<< 8 ||| frame.getD 1 0
    if frameLength ≠ frame.length + 2 then .error .frameLengthMismatch
    else if frame.length < 7 then .error .indexError
    else
      let dcbStart := (frame.getD 4 0) <<< 8 ||| frame.getD 3 0
      let dcbLength := (frame.getD 6 0) <<< 8 ||| frame.getD 5 0
      if dcbLength = 0 then .error .wrongPin
      else if (dcbLength : Int) ≠ (frameLength : Int) - 9 then .error .dcbLengthMismatch
      else .ok (dcbStart, frame.drop 7)

/-- Decoded field values of `Heatmiser.get_info`.  `vT` holds a temperature
as the raw 16-bit tenth-of-degree integer that the source divides by 10.0
(the division itself is a float operation and is kept symbolic here);
`vD` holds a nested `OrderedDict` (trigger groups). -/
inductive Val where
  | vN : Nat → Val
  | vS : String → Val
  | vB : Bool → Val
  | vT : Nat → Val
  | vD : List (String × Val) → Val

/-- Model of an `OrderedDict` from field name to decoded value. -/
abbrev Info := List (String × Val)

/-- Model of `OrderedDict` assignment `info[k] = v` when the key may already
be present: the value is replaced in place, otherwise the pair is appended. -/
def setK (info : Info) (k : String) (v : Val) : Info :=
  if (List.lookup k info).isSome then
    info.map (fun p => if p.1 = k then (k, v) else p)
  else
    info ++ [(k, v)]

/-- Python list indexing `l[i]` on a byte buffer with a nonnegative index:
`IndexError` when out of range. -/
def geti (l : List Nat) (i : Nat) : Except HmError Nat :=
  if i < l.length then .ok (l.getD i 0) else .error .indexError

/-- Day-of-week label table `DoW` of the source. -/
def DoW : List String := ["MON", "TUE", "WED", "THUR", "FRI", "SAT", "SUN"]

/-- Python list indexing on a list of strings with a possibly negative index
(Python wraps a negative index by the length once before bounds checking). -/
def pyStrIndex (l : List String) (i : Int) : Except HmError String :=
  let j := if i < 0 then i + l.length else i
  if 0 ≤ j ∧ j < l.length then .ok (l.getD j.toNat "") else .error .indexError

/-- Python `"{:02d}".format(n)` for a nonnegative integer. -/
def pad2 (n : Nat) : String :=
  if n < 10 then "0" ++ toString n else toString n

/-- One 3-byte heating trigger slot (`hour`, `minute`, `set_temp`) read by
`Heatmiser._get_info_time_triggers`. -/
def triggerSlotE (dcb : List Nat) (i : Nat) : Except HmError Val :=
  match geti dcb i with
  | .error e => .error e
  | .ok h =>
    match geti dcb (i + 1) with
    | .error e => .error e
    | .ok m =>
      match geti dcb (i + 2) with
      | .error e => .error e
      | .ok t => .ok (.vD [("hour", .vN h), ("minute", .vN m), ("set_temp", .vN t)])

/-- Embeds `Heatmiser._get_info_time_triggers`: four consecutive 3-byte
heating trigger slots starting at `first`, keyed `time1`..`time4`. -/
def triggersE (dcb : List Nat) (first : Nat) : Except HmError Val :=
  match triggerSlotE dcb first with
  | .error e => .error e
  | .ok t1 =>
    match triggerSlotE dcb (first + 3) with
    | .error e => .error e
    | .ok t2 =>
      match triggerSlotE dcb (first + 6) with
      | .error e => .error e
      | .ok t3 =>
        match triggerSlotE dcb (first + 9) with
        | .error e => .error e
        | .ok t4 => .ok (.vD [("time1", t1), ("time2", t2), ("time3", t3), ("time4", t4)])

/-- One 4-byte hot-water trigger slot (`hour_on`, `minute_on`, `hour_off`,
`minute_off`) read by `Heatmiser._get_info_time_triggers_hw`. -/
def triggerSlotHwE (dcb : List Nat) (i : Nat) : Except HmError Val :=
  match geti dcb i with
  | .error e => .error e
  | .ok hon =>
    match geti dcb (i + 1) with
    | .error e => .error e
    | .ok mon =>
      match geti dcb (i + 2) with
      | .error e => .error e
      | .ok hoff =>
        match geti dcb (i + 3) with
        | .error e => .error e
        | .ok moff =>
          .ok (.vD [("hour_on", .vN hon), ("minute_on", .vN mon),
                    ("hour_off", .vN hoff), ("minute_off", .vN moff)])

/-- Embeds `Heatmiser._get_info_time_triggers_hw`: four consecutive 4-byte
hot-water trigger slots starting at `first`, keyed `time1`..`time4`. -/
def triggersHwE (dcb : List Nat) (first : Nat) : Except HmError Val :=
  match triggerSlotHwE dcb first with
  | .error e => .error e
  | .ok t1 =>
    match triggerSlotHwE dcb (first + 4) with
    | .error e => .error e
    | .ok t2 =>
      match triggerSlotHwE dcb (first + 8) with
      | .error e => .error e
      | .ok t3 =>
        match triggerSlotHwE dcb (first + 12) with
        | .error e => .error e
        | .ok t4 => .ok (.vD [("time1", t1), ("time2", t2), ("time3", t3), ("time4", t4)])

/-- DCB length threshold `dl` per model byte (`get_info` lines 266, 278):
58 for TM1, 72 otherwise. -/
def dlOf (m : Nat) : Nat := if m = 5 then 58 else 72

/-- Program-mode byte address `pm` per model byte: 6 for TM1, 16 otherwise. -/
def pmOf (m : Nat) : Nat := if m = 5 then 6 else 16

/-- Time base address `tb` per model byte: 44 for PRTHW, 19 for TM1,
41 otherwise. -/
def tbOf (m : Nat) : Nat := if m = 4 then 44 else if m = 5 then 19 else 41

/-- Holiday-return base address `hr` per model byte: 10 for TM1, 25 otherwise. -/
def hrOf (m : Nat) : Nat := if m = 5 then 10 else 25

/-- On/Off read address `oo` per model byte: 8 for TM1, 21 otherwise. -/
def ooOf (m : Nat) : Nat := if m = 5 then 8 else 21

/-- Key-lock read address `kl` per model byte: 9 for TM1, 22 otherwise. -/
def klOf (m : Nat) : Nat := if m = 5 then 9 else 22

/-- Heating 7-day base address `wt` per model byte: 107 for PRTHW,
72 otherwise. -/
def wtOf (m : Nat) : Nat := if m = 4 then 107 else 72

/-- Hot-water base address `hwt` per model byte.  The Python local `hwt` is
only assigned for model bytes 4 and 5; `none` models the unassigned local
(reading it raises `NameError`). -/
def hwtOf (m : Nat) : Nat × Bool :=
  if m = 4 then (191, true) else if m = 5 then (58, true) else (0, false)

/-- Model name string decoded from DCB byte 4 (`get_info` lines 241-254). -/
def modelName (m : Nat) : String :=
  if m = 0 then "DT"
  else if m = 1 then "DT-E"
  else if m = 2 then "PRT"
  else if m = 3 then "PRT-E"
  else if m = 4 then "PRTHW"
  else if m = 5 then "TM1"
  else "Unknown"

/-- Sensor-selection label and, in the fall-through branch of the source
(lines 306-309), the `optimum_start` / `rate_of_change` fields that the
source only assigns inside that `else` branch. -/
def sensorPart (s os roc : Nat) : Info :=
  if s = 0 then [("sensor_selection", .vS "Built in air sensor only")]
  else if s = 1 then [("sensor_selection", .vS "Remote air sensor only")]
  else if s = 2 then [("sensor_selection", .vS "Floor sensor only")]
  else if s = 3 then [("sensor_selection", .vS "Built in air and floor sensor")]
  else if s = 4 then [("sensor_selection", .vS "Remote air and floor sensor")]
  else [("sensor_selection", .vS "Unknown"),
        ("optimum_start", .vN os), ("rate_of_change", .vN roc)]

/-- On/Off label decoded from the on/off byte (`get_info` lines 325-328). -/
def onOffStr (b : Nat) : String := if b = 1 then "On" else "Off"

/-- Key-lock label decoded from the key-lock byte (lines 329-332). -/
def keyLockStr (b : Nat) : String := if b = 0 then "Unlock" else "Lock"

/-- The part of `Heatmiser.get_info` up to line 357 (everything before the
DT / DT-E early return).  All byte accesses here use indices at most 40 and
are in bounds under the `len(dcb) >= 41` guard of `getInfo`, so this part
is pure.  Every key assigned here is fresh, so assignments are appends. -/
def commonStage (dcb : List Nat) : Info :=
  let d := fun i => dcb.getD i 0
  let m := d 4
  [("vendor_id", .vS (if d 2 = 0 then "HEATMISER" else "OEM")),
   ("version", .vN (d 3 &&& 0x7F)),
   ("in_floor_limit_state", .vB (0 < (d 3 &&& 0x8F))),
   ("model", .vS (modelName m))]
  ++ (if m ≤ 4 then
        [("temperature_format", .vS (if d 5 = 0 then "Celsius" else "Fahrenheit")),
         ("switch_differential", .vN (d 6)),
         ("frost_protection_enable", .vB (d 7 = 1)),
         ("calibration_offset", .vN ((d 8 <<< 8) ||| d 9)),
         ("output_delay_in_minutes", .vN (d 10)),
         ("up_down_key_limit", .vN (d 12))]
        ++ sensorPart (d 13) (d 14) (d 15)
      else [])
  ++ [("program_mode", .vS (if d (pmOf m) = 0 then "2/5 mode" else "7 day mode"))]
  ++ (if m ≤ 4 then
        [("frost_protect_temperature", .vN (d 17)),
         ("set_room_temp", .vN (d 18)),
         ("floor_max_limit", .vN (d 19)),
         ("floor_max_limit_enable", .vB (d 20 = 1))]
      else [])
  ++ [("on_off", .vS (onOffStr (d (ooOf m)))),
      ("key_lock", .vS (keyLockStr (d (klOf m))))]
  ++ (if m ≤ 4 then
        [("run_mode", .vS (if d 23 = 0 then "Heating mode (normal mode)"
                           else "Frost protection mode"))]
      else [])
  ++ [("holiday_return_date_year", .vN (2000 + d (hrOf m))),
      ("holiday_return_date_month", .vN (d (hrOf m + 1))),
      ("holiday_return_date_day_of_month", .vN (d (hrOf m + 2))),
      ("holiday_return_date_hour", .vN (d (hrOf m + 3))),
      ("holiday_return_date_minute", .vN (d (hrOf m + 4))),
      ("holiday_enable", .vB (d (hrOf m + 5) = 1))]
  ++ (if m ≤ 4 then
        [("temp_hold_minutes", .vN ((d 31 <<< 8) ||| d 32))]
        ++ (if d 13 = 1 ∨ d 13 = 4 then [("air_temp", .vT ((d 34 <<< 8) ||| d 33))] else [])
        ++ (if d 13 = 2 ∨ d 13 = 3 ∨ d 13 = 4 then [("floor_temp", .vT ((d 36 <<< 8) ||| d 35))] else [])
        ++ (if d 13 = 0 ∨ d 13 = 3 then [("air_temp", .vT ((d 38 <<< 8) ||| d 37))] else [])
        ++ [("error_code", .vN (d 39)),
            ("heating_is_currently_on", .vB (d 40 = 1))]
      else [])

/-- The date/time part of `get_info` (lines 368-385): the seven clock bytes
at the model's time base address and the composed `clock` string.  The
source indexes `DoW[weekday - 1]`, which raises `IndexError` when the
weekday byte exceeds 7 (and silently wraps to `SUN` when it is 0). -/
def clockStage (dcb : List Nat) (info : Info) : Except HmError Info :=
  let d := fun i => dcb.getD i 0
  let tb := tbOf (d 4)
  let c4 := d (tb + 3)
  match pyStrIndex DoW ((c4 : Int) - 1) with
  | .error e => .error e
  | .ok dow =>
    .ok (info ++
      [("year", .vN (2000 + d tb)),
       ("month", .vN (d (tb + 1))),
       ("day_of_month", .vN (d (tb + 2))),
       ("weekday", .vN c4),
       ("hour", .vN (d (tb + 4))),
       ("minute", .vN (d (tb + 5))),
       ("second", .vN (d (tb + 6))),
       ("clock", .vS (toString (2000 + d tb) ++ "/" ++ toString (d (tb + 1)) ++ "/"
                      ++ toString (d (tb + 2)) ++ " " ++ dow ++ " "
                      ++ toString (d (tb + 4)) ++ ":" ++ pad2 (d (tb + 5)) ++ ":"
                      ++ pad2 (d (tb + 6))))])

/-- The weekday/weekend heating trigger part of `get_info` (lines 386-388),
for model bytes at most 4. -/
def trigStage (dcb : List Nat) (info : Info) : Except HmError Info :=
  if dcb.getD 4 0 ≤ 4 then
    match triggersE dcb 48, triggersE dcb 60 with
    | .ok wd, .ok we =>
      .ok (info ++ [("weekday_triggers", wd), ("weekend_triggers", we)])
    | .error e, _ => .error e
    | _, .error e => .error e
  else .ok info

/-- The PRTHW-specific part of `get_info` (lines 392-402): boost, hot-water
state, re-assignment of the heating weekday/weekend trigger groups at the
PRTHW offsets (an in-place overwrite of keys set by `trigStage`) and the
hot-water weekday/weekend trigger groups. -/
def hwStagePRTHW (dcb : List Nat) (info : Info) : Except HmError Info :=
  let d := fun i => dcb.getD i 0
  if d 4 = 4 then
    match triggersE dcb 51, triggersE dcb 63, triggersHwE dcb 75, triggersHwE dcb 91 with
    | .ok wd, .ok we, .ok hwwd, .ok hwwe =>
      .ok ((setK (setK (info ++
              [("boost", .vN ((d 41 <<< 8) ||| d 42)),
               ("hot_water_state", .vS (if d 43 = 1 then "On" else "Off"))])
              "weekday_triggers" wd) "weekend_triggers" we)
            ++ [("weekday_hw_triggers", hwwd), ("weekend_hw_triggers", hwwe)])
    | .error e, _, _, _ => .error e
    | _, .error e, _, _ => .error e
    | _, _, .error e, _ => .error e
    | _, _, _, .error e => .error e
  else .ok info

/-- The TM1-specific part of `get_info` (lines 403-409): hot-water state and
the hot-water weekday/weekend trigger groups at the TM1 offsets. -/
def hwStageTM1 (dcb : List Nat) (info : Info) : Except HmError Info :=
  let d := fun i => dcb.getD i 0
  if d 4 = 5 then
    match triggersHwE dcb 26, triggersHwE dcb 42 with
    | .ok hwwd, .ok hwwe =>
      .ok (info ++
        [("hot_water_state", .vS (if d 18 = 0 then "Off" else "On")),
         ("weekday_hw_triggers", hwwd), ("weekend_hw_triggers", hwwe)])
    | .error e, _ => .error e
    | _, .error e => .error e
  else .ok info

/-- The model-specific hot-water/timer part of `get_info` (lines 392-409). -/
def hwStage (dcb : List Nat) (info : Info) : Except HmError Info :=
  match hwStagePRTHW dcb info with
  | .error e => .error e
  | .ok info => hwStageTM1 dcb info

/-- The 7-day heating schedule part of `get_info` (lines 423-430), for model
bytes at most 4, at stride 12 from the model's weekly base address. -/
def sevenDayHeat (dcb : List Nat) (info : Info) : Except HmError Info :=
  let wt := wtOf (dcb.getD 4 0)
  if dcb.getD 4 0 ≤ 4 then
    match triggersE dcb wt, triggersE dcb (wt + 12), triggersE dcb (wt + 24),
          triggersE dcb (wt + 36), triggersE dcb (wt + 48), triggersE dcb (wt + 60),
          triggersE dcb (wt + 72) with
    | .ok a, .ok b, .ok c, .ok dd, .ok e, .ok f, .ok g =>
      .ok (info ++ [("mon_triggers", a), ("tue_triggers", b), ("wed_triggers", c),
                    ("thu_triggers", dd), ("fri_triggers", e), ("sat_triggers", f),
                    ("sun_triggers", g)])
    | .error e, _, _, _, _, _, _ => .error e
    | _, .error e, _, _, _, _, _ => .error e
    | _, _, .error e, _, _, _, _ => .error e
    | _, _, _, .error e, _, _, _ => .error e
    | _, _, _, _, .error e, _, _ => .error e
    | _, _, _, _, _, .error e, _ => .error e
    | _, _, _, _, _, _, .error e => .error e
  else .ok info

/-- The 7-day hot-water schedule part of `get_info` (lines 439-446), for
model bytes at least 4, at stride 16 from the hot-water base address.  For
model bytes 6 and above the Python local `hwt` was never assigned and the
source raises `NameError`. -/
def sevenDayHw (dcb : List Nat) (info : Info) : Except HmError Info :=
  if 4 ≤ dcb.getD 4 0 then
    match hwtOf (dcb.getD 4 0) with
    | (_, false) => .error .nameError
    | (hwt, true) =>
      match triggersHwE dcb hwt, triggersHwE dcb (hwt + 16), triggersHwE dcb (hwt + 32),
            triggersHwE dcb (hwt + 48), triggersHwE dcb (hwt + 64),
            triggersHwE dcb (hwt + 80), triggersHwE dcb (hwt + 96) with
      | .ok a, .ok b, .ok c, .ok dd, .ok e, .ok f, .ok g =>
        .ok (info ++ [("mon_hw_triggers", a), ("tue_hw_triggers", b),
                      ("wed_hw_triggers", c), ("thu_hw_triggers", dd),
                      ("fri_hw_triggers", e), ("sat_hw_triggers", f),
                      ("sun_hw_triggers", g)])
      | .error e, _, _, _, _, _, _ => .error e
      | _, .error e, _, _, _, _, _ => .error e
      | _, _, .error e, _, _, _, _ => .error e
      | _, _, _, .error e, _, _, _ => .error e
      | _, _, _, _, .error e, _, _ => .error e
      | _, _, _, _, _, .error e, _ => .error e
      | _, _, _, _, _, _, .error e => .error e
  else .ok info

/-- The 7-day schedule part of `get_info` (lines 423-446). -/
def sevenDayStage (dcb : List Nat) (info : Info) : Except HmError Info :=
  match sevenDayHeat dcb info with
  | .error e => .error e
  | .ok info => sevenDayHw dcb info

/-- Embeds `Heatmiser.get_info` applied to an already-received DCB buffer:
the length guard at 41 bytes, the common block, the DT / DT-E early return,
the model-dependent length guard, clock, trigger and hot-water sections,
the 2/5-mode early return, the length guard at 156 bytes, and the 7-day
schedule sections. -/
def getInfo (dcb : List Nat) : Except HmError Info :=
  if dcb.length < 41 then .error .recordTooShort else
  if dcb.getD 4 0 ≤ 1 then .ok (commonStage dcb) else
  if dcb.length < dlOf (dcb.getD 4 0) then .error .recordTooShort else
  match clockStage dcb (commonStage dcb) with
  | .error e => .error e
  | .ok info =>
    match trigStage dcb info with
    | .error e => .error e
    | .ok info =>
      match hwStage dcb info with
      | .error e => .error e
      | .ok info =>
        if dcb.getD (pmOf (dcb.getD 4 0)) 0 = 0 then .ok info else
        if dcb.length < 156 then .error .recordTooShort else
        sevenDayStage dcb info

/-- The wall-clock time source (`datetime.datetime.now()`), an external
collaborator of `Heatmiser.set_clock`.  Fields carry the calendar values
that the corresponding `strftime` fields report. -/
structure Tm where
  year : Nat
  month : Nat
  day : Nat
  hour : Nat
  minute : Nat
  second : Nat
deriving DecidableEq, Repr

/-- The weekday number that Python `strftime("%w")` reports for a Gregorian
date: 0 for Sunday through 6 for Saturday (Sakamoto's method). -/
def pyDowW (y m d : Nat) : Nat :=
  let t := [0, 3, 2, 5, 0, 3, 5, 1, 4, 6, 2, 4]
  let y := if m < 3 then y - 1 else y
  (y + y / 4 + y / 400 + t.getD (m - 1) 0 + d - y / 100) % 7

/-- Embeds `Heatmiser.set_clock`: the current time is encoded as the 7 bytes
`(year mod 100, month, day, %w-weekday + 1, hour, minute, second)` and
written to DCB address 43.  Note `strftime("%w")` is 0 for Sunday, so the
weekday byte is 1 for Sunday through 7 for Saturday. -/
def setClock (now : Tm) : Nat × List Nat :=
  (43, [now.year % 100, now.month, now.day,
        pyDowW now.year now.month now.day + 1,
        now.hour, now.minute, now.second])

/-- Caller-supplied value for `Heatmiser.set_value`: a Python int, string,
bool, or a list of byte values. -/
inductive HmValue where
  | vInt : Int → HmValue
  | vStr : String → HmValue
  | vBool : Bool → HmValue
  | vBytes : List Nat → HmValue
deriving DecidableEq, Repr

/-- Python `==` between the value kinds that `set_value` compares
(`True == 1` and `False == 0` hold in Python). -/
def pyEq : HmValue → HmValue → Bool
  | .vInt a, .vInt b => a == b
  | .vInt a, .vBool b => a == (if b then 1 else 0)
  | .vBool a, .vInt b => (if a then (1 : Int) else 0) == b
  | .vBool a, .vBool b => a == b
  | .vStr a, .vStr b => a == b
  | _, _ => false

/-- Python `int(value)` as used by the numeric branches of `set_value`. -/
def pyInt : HmValue → Except HmError Int
  | .vInt n => .ok n
  | .vBool b => .ok (if b then 1 else 0)
  | .vStr s => match s.toInt? with
    | some n => .ok n
    | none => .error .valueError
  | .vBytes _ => .error .typeError

/-- Python `bytearray([n])`: a one-byte payload, `ValueError` when the value
does not fit a byte. -/
def byte1 (n : Int) : Except HmError (List Nat) :=
  if 0 ≤ n ∧ n < 256 then .ok [n.toNat] else .error .valueError

/-- Python `bytearray(value)` as used by the trigger branches of
`set_value`: a list is taken byte-for-byte (`ValueError` when an element
does not fit a byte), an integer produces that many zero bytes, and a
string raises `TypeError`. -/
def bytearrayOf : HmValue → Except HmError (List Nat)
  | .vBytes l => if l.all (· < 256) then .ok l else .error .valueError
  | .vInt n => if 0 ≤ n then .ok (List.replicate n.toNat 0) else .error .valueError
  | .vBool b => .ok (List.replicate (if b then 1 else 0) 0)
  | .vStr _ => .error .typeError

/-- Embeds `Heatmiser.set_value`: the string-keyed dispatch chain, in source
order, including the duplicated `weekday_hw_triggers` branch (lines 544-547).
The result is the single `(dcb_address, payload)` write that `set_dcb`
would send; an error result models a `raise` before any byte is sent.
`unknownField` is the final `"not supported to be set"` raise and
`invalidFieldValue` the per-field `"invalid value"` raises. -/
def setValue (now : Tm) (name : String) (value : HmValue) : Except HmError (Nat × List Nat) :=
  if name = "switch_differential" then
    match pyInt value with
    | .error e => .error e
    | .ok n => match byte1 n with
      | .error e => .error e
      | .ok bs => .ok (6, bs)
  else if name = "frost_protect_temperature" then
    match pyInt value with
    | .error e => .error e
    | .ok n => match byte1 n with
      | .error e => .error e
      | .ok bs => .ok (17, bs)
  else if name = "set_room_temp" then
    match pyInt value with
    | .error e => .error e
    | .ok n => match byte1 n with
      | .error e => .error e
      | .ok bs => .ok (18, bs)
  else if name = "floor_max_limit" then
    match pyInt value with
    | .error e => .error e
    | .ok n => match byte1 n with
      | .error e => .error e
      | .ok bs => .ok (19, bs)
  else if name = "floor_max_limit_enable" then
    if pyEq value (.vBool true) ∨ pyEq value (.vStr "True")
       ∨ pyEq value (.vStr "1") ∨ pyEq value (.vInt 1) then .ok (20, [1])
    else if pyEq value (.vBool false) ∨ pyEq value (.vStr "False")
       ∨ pyEq value (.vStr "0") ∨ pyEq value (.vInt 0) then .ok (20, [0])
    else .error .invalidFieldValue
  else if name = "on_off" then
    if pyEq value (.vStr "On") then .ok (21, [1])
    else if pyEq value (.vStr "Off") then .ok (21, [0])
    else .error .invalidFieldValue
  else if name = "key_lock" then
    if pyEq value (.vStr "Lock") then .ok (22, [1])
    else if pyEq value (.vStr "Unlock") then .ok (22, [0])
    else .error .invalidFieldValue
  else if name = "run_mode" then
    if pyEq value (.vStr "Frost protection mode") then .ok (23, [1])
    else if pyEq value (.vStr "Heating mode (normal mode)") then .ok (23, [0])
    else .error .invalidFieldValue
  else if name = "away_mode" then
    if pyEq value (.vStr "off") then .ok (31, [0])
    else if pyEq value (.vStr "on") then .ok (31, [1])
    else .error .invalidFieldValue
  else if name = "hot_water_state" then
    if pyEq value (.vStr "off") then .ok (42, [2])
    else if pyEq value (.vStr "on") then .ok (42, [1])
    else if pyEq value (.vStr "prog") then .ok (42, [0])
    else .error .invalidFieldValue
  else if name = "weekday_triggers" then
    match bytearrayOf value with
    | .error e => .error e
    | .ok bs => .ok (47, bs)
  else if name = "weekend_triggers" then
    match bytearrayOf value with
    | .error e => .error e
    | .ok bs => .ok (59, bs)
  else if name = "weekday_hw_triggers" then
    match bytearrayOf value with
    | .error e => .error e
    | .ok bs => .ok (71, bs)
  else if name = "weekday_hw_triggers" then
    match bytearrayOf value with
    | .error e => .error e
    | .ok bs => .ok (87, bs)
  else if name = "mon_triggers" then
    match bytearrayOf value with
    | .error e => .error e
    | .ok bs => .ok (103, bs)
  else if name = "tue_triggers" then
    match bytearrayOf value with
    | .error e => .error e
    | .ok bs => .ok (115, bs)
  else if name = "wed_triggers" then
    match bytearrayOf value with
    | .error e => .error e
    | .ok bs => .ok (127, bs)
  else if name = "thu_triggers" then
    match bytearrayOf value with
    | .error e => .error e
    | .ok bs => .ok (139, bs)
  else if name = "fri_triggers" then
    match bytearrayOf value with
    | .error e => .error e
    | .ok bs => .ok (151, bs)
  else if name = "sat_triggers" then
    match bytearrayOf value with
    | .error e => .error e
    | .ok bs => .ok (163, bs)
  else if name = "sun_triggers" then
    match bytearrayOf value with
    | .error e => .error e
    | .ok bs => .ok (175, bs)
  else if name = "mon_hw_triggers" then
    match bytearrayOf value with
    | .error e => .error e
    | .ok bs => .ok (187, bs)
  else if name = "tue_hw_triggers" then
    match bytearrayOf value with
    | .error e => .error e
    | .ok bs => .ok (203, bs)
  else if name = "wed_hw_triggers" then
    match bytearrayOf value with
    | .error e => .error e
    | .ok bs => .ok (219, bs)
  else if name = "thu_hw_triggers" then
    match bytearrayOf value with
    | .error e => .error e
    | .ok bs => .ok (235, bs)
  else if name = "fri_hw_triggers" then
    match bytearrayOf value with
    | .error e => .error e
    | .ok bs => .ok (251, bs)
  else if name = "sat_hw_triggers" then
    match bytearrayOf value with
    | .error e => .error e
    | .ok bs => .ok (267, bs)
  else if name = "sun_hw_triggers" then
    match bytearrayOf value with
    | .error e => .error e
    | .ok bs => .ok (283, bs)
  else if name = "clock" then
    .ok (setClock now)
  else .error .unknownField

/-- A concrete reference time: 2026-10-12 (a Monday) 09:30:00. -/
def now0 : Tm := { year := 2026, month := 10, day := 12, hour := 9, minute := 30, second := 0 }

/-- A zero byte buffer of the given length with selected indices overridden. -/
def mkDcb (len : Nat) (over : List (Nat × Nat)) : List Nat :=
  (List.range len).map (fun i => (List.lookup i over).getD 0)

/-- A 72-byte PRT DCB in 2/5 mode: model byte 2, program mode byte 0,
on/off byte 1, clock weekday byte (offset 44) 1. -/
def prtDcb : List Nat := mkDcb 72 [(4, 2), (21, 1), (44, 1)]

/-- A 58-byte TM1 DCB in 2/5 mode: model byte 5, on/off read byte
(offset 8) 0, byte 21 set to 1, clock weekday byte (offset 22) 1. -/
def tm1Dcb : List Nat := mkDcb 58 [(4, 5), (21, 1), (22, 1)]

/-- A 107-byte PRTHW DCB in 2/5 mode: model byte 4, clock weekday byte
(offset 47) 1. -/
def prthwDcb : List Nat := mkDcb 107 [(4, 4), (47, 1)]

/-- A 41-byte all-zero DT DCB (model byte 0). -/
def dtDcb : List Nat := mkDcb 41 []

/-- The decoded record of a buffer, or the empty record on failure; used to
state closed witness facts about accepted buffers. -/
def decodeOr (dcb : List Nat) : Info :=
  match getInfo dcb with
  | .ok i => i
  | .error _ => []

/-- A concrete 12-byte heating trigger-group payload. -/
def trigBytes : List Nat := [7, 0, 20, 9, 0, 16, 18, 0, 20, 22, 0, 16]

/-- A concrete 16-byte hot-water trigger-group payload. -/
def trigHwBytes : List Nat := [6, 30, 8, 0, 12, 0, 13, 0, 17, 0, 22, 0, 0, 0, 0, 0]

/-- An 11-byte all-zero response buffer (used as a parser witness input). -/
def zeroResp : List Nat := List.replicate 11 0

/-- The clock and trigger-group field names (absent for DT / DT-E). -/
def clockTriggerKeys : List String :=
  ["year", "month", "day_of_month", "weekday", "hour", "minute", "second", "clock",
   "weekday_triggers", "weekend_triggers",
   "mon_triggers", "tue_triggers", "wed_triggers", "thu_triggers", "fri_triggers",
   "sat_triggers", "sun_triggers",
   "weekday_hw_triggers", "weekend_hw_triggers",
   "mon_hw_triggers", "tue_hw_triggers", "wed_hw_triggers", "thu_hw_triggers",
   "fri_hw_triggers", "sat_hw_triggers", "sun_hw_triggers"]

/-! ## Helper lemmas about ordered-record lookup -/

theorem lookup_append_eq (k : String) (l1 l2 : Info) :
    List.lookup k (l1 ++ l2) =
      (match List.lookup k l1 with | some v => some v | none => List.lookup k l2) := by
  induction l1 with
  | nil => simp [List.lookup]
  | cons p t ih =>
    rcases p with ⟨a, b⟩
    simp only [List.cons_append, List.lookup]
    cases h : (k == a) <;> simp [ih]

theorem lookup_append_pres (k : String) (l1 l2 : Info)
    (h : List.lookup k l2 = none) :
    List.lookup k (l1 ++ l2) = List.lookup k l1 := by
  rw [lookup_append_eq, h]
  cases List.lookup k l1 <;> rfl

theorem lookup_ite (k : String) (c : Prop) [Decidable c] (a b : Info) :
    List.lookup k (if c then a else b) = if c then List.lookup k a else List.lookup k b := by
  split <;> rfl

theorem lookup_eq_none_of_not_mem (k : String) (l : Info)
    (h : k ∉ l.map Prod.fst) :
    List.lookup k l = none := by
  induction l with
  | nil => rfl
  | cons p t ih =>
    rcases p with ⟨a, b⟩
    simp only [List.map_cons, List.mem_cons] at h
    push_neg at h
    simp only [List.lookup, beq_eq_false_iff_ne.mpr h.1]
    exact ih h.2

theorem lookup_map_update (info : Info) (k : String) (v : Val)
    (h : (List.lookup k info).isSome) :
    List.lookup k (info.map (fun p => if p.1 = k then (k, v) else p)) = some v := by
  induction info with
  | nil => simp [List.lookup] at h
  | cons p t ih =>
    rcases p with ⟨a, b⟩
    simp only [List.map_cons]
    by_cases ha : a = k
    · subst ha
      rw [if_pos rfl]
      simp [List.lookup]
    · have hk : (k == a) = false := beq_eq_false_iff_ne.mpr (Ne.symm ha)
      simp only [List.lookup, hk] at h
      rw [if_neg ha]
      simp only [List.lookup, hk]
      exact ih h

theorem lookup_map_update_ne (info : Info) (k k2 : String) (v : Val) (h : k2 ≠ k) :
    List.lookup k2 (info.map (fun p => if p.1 = k then (k, v) else p)) = List.lookup k2 info := by
  induction info with
  | nil => rfl
  | cons p t ih =>
    rcases p with ⟨a, b⟩
    simp only [List.map_cons]
    by_cases ha : a = k
    · subst ha
      rw [if_pos rfl]
      simp only [List.lookup, beq_eq_false_iff_ne.mpr h]
      exact ih
    · rw [if_neg ha]
      simp only [List.lookup]
      cases hk : (k2 == a) <;> simp [ih]

theorem lookup_setK_self (info : Info) (k : String) (v : Val) :
    List.lookup k (setK info k v) = some v := by
  unfold setK
  split
  · next h => exact lookup_map_update info k v h
  · next h =>
    rw [lookup_append_eq]
    cases hx : List.lookup k info with
    | none => simp [List.lookup]
    | some w => exact absurd (by simp [hx]) h

theorem lookup_setK_ne (info : Info) (k k2 : String) (v : Val) (h : k2 ≠ k) :
    List.lookup k2 (setK info k v) = List.lookup k2 info := by
  unfold setK
  split
  · exact lookup_map_update_ne info k k2 v h
  · rw [lookup_append_pres]
    simp [List.lookup, beq_eq_false_iff_ne.mpr h]

/-! ## Stage lemmas for the decoder -/

theorem commonStage_extra_none (dcb : List Nat) (k : String)
    (hk : k ∈ clockTriggerKeys) :
    List.lookup k (commonStage dcb) = none := by
  simp only [clockTriggerKeys, List.mem_cons, List.not_mem_nil, or_false] at hk
  obtain rfl | rfl | rfl | rfl | rfl | rfl | rfl | rfl | rfl | rfl | rfl | rfl | rfl |
    rfl | rfl | rfl | rfl | rfl | rfl | rfl | rfl | rfl | rfl | rfl | rfl | rfl := hk <;>
  simp [commonStage, sensorPart, lookup_append_eq, lookup_ite, List.lookup, ite_self]

theorem commonStage_on_off (dcb : List Nat) :
    List.lookup "on_off" (commonStage dcb) =
      some (.vS (onOffStr (dcb.getD (ooOf (dcb.getD 4 0)) 0))) := by
  simp [commonStage, sensorPart, lookup_append_eq, lookup_ite, List.lookup, ite_self]

theorem commonStage_key_lock (dcb : List Nat) :
    List.lookup "key_lock" (commonStage dcb) =
      some (.vS (keyLockStr (dcb.getD (klOf (dcb.getD 4 0)) 0))) := by
  simp [commonStage, sensorPart, lookup_append_eq, lookup_ite, List.lookup, ite_self]

theorem clockStage_pres (dcb : List Nat) (info info2 : Info) (k : String)
    (H : clockStage dcb info = .ok info2)
    (hk : k ∉ ["year", "month", "day_of_month", "weekday", "hour", "minute",
               "second", "clock"]) :
    List.lookup k info2 = List.lookup k info := by
  simp only [clockStage] at H
  split at H
  · exact absurd H (by simp)
  · injection H with h
    subst h
    rw [lookup_append_pres]
    apply lookup_eq_none_of_not_mem
    simpa using hk

theorem trigStage_pres (dcb : List Nat) (info info2 : Info) (k : String)
    (H : trigStage dcb info = .ok info2)
    (hk : k ∉ ["weekday_triggers", "weekend_triggers"]) :
    List.lookup k info2 = List.lookup k info := by
  simp only [trigStage] at H
  split at H
  · split at H
    · injection H with h
      subst h
      rw [lookup_append_pres]
      apply lookup_eq_none_of_not_mem
      simpa using hk
    · exact absurd H (by simp)
    · exact absurd H (by simp)
  · injection H with h
    subst h
    rfl

theorem hwStagePRTHW_pres (dcb : List Nat) (info info2 : Info) (k : String)
    (H : hwStagePRTHW dcb info = .ok info2)
    (hk : k ∉ ["boost", "hot_water_state", "weekday_triggers", "weekend_triggers",
               "weekday_hw_triggers", "weekend_hw_triggers"]) :
    List.lookup k info2 = List.lookup k info := by
  simp only [hwStagePRTHW] at H
  split at H
  · split at H
    · injection H with h
      subst h
      rw [lookup_append_pres, lookup_setK_ne, lookup_setK_ne, lookup_append_pres]
      · apply lookup_eq_none_of_not_mem
        simp at hk ⊢
        tauto
      · rintro rfl
        simp at hk
      · rintro rfl
        simp at hk
      · apply lookup_eq_none_of_not_mem
        simp at hk ⊢
        tauto
    · exact absurd H (by simp)
    · exact absurd H (by simp)
    · exact absurd H (by simp)
    · exact absurd H (by simp)
  · injection H with h
    subst h
    rfl

theorem hwStageTM1_pres (dcb : List Nat) (info info2 : Info) (k : String)
    (H : hwStageTM1 dcb info = .ok info2)
    (hk : k ∉ ["hot_water_state", "weekday_hw_triggers", "weekend_hw_triggers"]) :
    List.lookup k info2 = List.lookup k info := by
  simp only [hwStageTM1] at H
  split at H
  · split at H
    · injection H with h
      subst h
      rw [lookup_append_pres]
      apply lookup_eq_none_of_not_mem
      simp at hk ⊢
      tauto
    · exact absurd H (by simp)
    · exact absurd H (by simp)
  · injection H with h
    subst h
    rfl

theorem hwStage_pres (dcb : List Nat) (info info2 : Info) (k : String)
    (H : hwStage dcb info = .ok info2)
    (hk : k ∉ ["boost", "hot_water_state", "weekday_triggers", "weekend_triggers",
               "weekday_hw_triggers", "weekend_hw_triggers"]) :
    List.lookup k info2 = List.lookup k info := by
  simp only [hwStage] at H
  split at H
  · exact absurd H (by simp)
  · next i heq =>
    rw [hwStageTM1_pres dcb i info2 k H (by simp at hk ⊢; tauto)]
    exact hwStagePRTHW_pres dcb info i k heq hk

theorem sevenDayHeat_pres (dcb : List Nat) (info info2 : Info) (k : String)
    (H : sevenDayHeat dcb info = .ok info2)
    (hk : k ∉ ["mon_triggers", "tue_triggers", "wed_triggers", "thu_triggers",
               "fri_triggers", "sat_triggers", "sun_triggers"]) :
    List.lookup k info2 = List.lookup k info := by
  simp only [sevenDayHeat] at H
  split at H
  · split at H
    · injection H with h
      subst h
      rw [lookup_append_pres]
      apply lookup_eq_none_of_not_mem
      simpa using hk
    · exact absurd H (by simp)
    · exact absurd H (by simp)
    · exact absurd H (by simp)
    · exact absurd H (by simp)
    · exact absurd H (by simp)
    · exact absurd H (by simp)
    · exact absurd H (by simp)
  · injection H with h
    subst h
    rfl

theorem sevenDayHw_pres (dcb : List Nat) (info info2 : Info) (k : String)
    (H : sevenDayHw dcb info = .ok info2)
    (hk : k ∉ ["mon_hw_triggers", "tue_hw_triggers", "wed_hw_triggers",
               "thu_hw_triggers", "fri_hw_triggers", "sat_hw_triggers",
               "sun_hw_triggers"]) :
    List.lookup k info2 = List.lookup k info := by
  simp only [sevenDayHw] at H
  split at H
  · split at H
    · exact absurd H (by simp)
    · split at H
      · injection H with h
        subst h
        rw [lookup_append_pres]
        apply lookup_eq_none_of_not_mem
        simpa using hk
      · exact absurd H (by simp)
      · exact absurd H (by simp)
      · exact absurd H (by simp)
      · exact absurd H (by simp)
      · exact absurd H (by simp)
      · exact absurd H (by simp)
      · exact absurd H (by simp)
  · injection H with h
    subst h
    rfl

theorem sevenDayStage_pres (dcb : List Nat) (info info2 : Info) (k : String)
    (H : sevenDayStage dcb info = .ok info2)
    (hk : k ∉ ["mon_triggers", "tue_triggers", "wed_triggers", "thu_triggers",
               "fri_triggers", "sat_triggers", "sun_triggers",
               "mon_hw_triggers", "tue_hw_triggers", "wed_hw_triggers",
               "thu_hw_triggers", "fri_hw_triggers", "sat_hw_triggers",
               "sun_hw_triggers"]) :
    List.lookup k info2 = List.lookup k info := by
  simp only [sevenDayStage] at H
  split at H
  · exact absurd H (by simp)
  · next i heq =>
    rw [sevenDayHw_pres dcb i info2 k H (by simp at hk ⊢; tauto)]
    exact sevenDayHeat_pres dcb info i k heq (by simp at hk ⊢; tauto)

/-! ## Theorems about the claims -/

/-- C7: for every DCB buffer of length strictly less than 41 bytes, decode
fails `RecordTooShort` regardless of the value of the model byte (or of any
other byte), and returns no partial record. -/
theorem getInfo_short_fails (dcb : List Nat) (h : dcb.length < 41) :
    getInfo dcb = .error .recordTooShort := by
  unfold getInfo
  rw [if_pos h]

/-- Witness for C7 at the concrete buffer `[5]`. -/
theorem getInfo_short_fails_witness :
    [(5 : Nat)].length < 41 ∧ getInfo [5] = .error .recordTooShort :=
  ⟨by decide, getInfo_short_fails [5] (by decide)⟩

/-- C9: for every pin, dcbStart and dcbLength (all 16-bit), the 11-byte
read-request frame passes the parser's own checksum validation: recomputing
`CRC16` over the frame's first 9 bytes yields exactly the (low, high) pair
appended as the frame's last two bytes. -/
theorem readRequest_crc_roundtrip (pin ds dl : Nat)
    (h1 : pin < 65536) (h2 : ds < 65536) (h3 : dl < 65536) :
    (sendReadRequestFrame pin ds dl).length = 11 ∧
    CRC16 ((sendReadRequestFrame pin ds dl).take 9) =
      ((sendReadRequestFrame pin ds dl).getD 9 0,
       (sendReadRequestFrame pin ds dl).getD 10 0) :=
  ⟨rfl, rfl⟩

/-- Witness for C9 at pin 1234, dcbStart 0, dcbLength 0xffff. -/
theorem readRequest_crc_roundtrip_witness :
    (1234 < 65536 ∧ 0 < 65536 ∧ 0xffff < 65536) ∧
    ((sendReadRequestFrame 1234 0 0xffff).length = 11 ∧
     CRC16 ((sendReadRequestFrame 1234 0 0xffff).take 9) =
       ((sendReadRequestFrame 1234 0 0xffff).getD 9 0,
        (sendReadRequestFrame 1234 0 0xffff).getD 10 0)) :=
  ⟨⟨by decide, by decide, by decide⟩,
   readRequest_crc_roundtrip 1234 0 0xffff (by decide) (by decide) (by decide)⟩

/-- C6: for every DCB buffer of length at least 41 whose model byte is 0
(DT) or 1 (DT-E), decode terminates after the fixed common block and the
returned record contains no clock field and no trigger-group field,
regardless of the program-mode byte. -/
theorem getInfo_DT_terminal (dcb : List Nat) (h41 : 41 ≤ dcb.length)
    (hm : dcb.getD 4 0 ≤ 1) :
    getInfo dcb = .ok (commonStage dcb) ∧
    ∀ k ∈ clockTriggerKeys, List.lookup k (commonStage dcb) = none := by
  constructor
  · unfold getInfo
    rw [if_neg (by omega)]
    simp only [hm, if_pos]
  · intro k hk
    simp only [clockTriggerKeys, List.mem_cons, List.not_mem_nil, or_false] at hk
    obtain rfl | rfl | rfl | rfl | rfl | rfl | rfl | rfl | rfl | rfl | rfl | rfl | rfl |
      rfl | rfl | rfl | rfl | rfl | rfl | rfl | rfl | rfl | rfl | rfl | rfl | rfl := hk <;>
    simp [commonStage, sensorPart, lookup_append_eq, lookup_ite, List.lookup, ite_self]

/-- Witness for C6 at the concrete 41-byte all-zero DT buffer. -/
theorem getInfo_DT_terminal_witness :
    (41 ≤ dtDcb.length ∧ dtDcb.getD 4 0 ≤ 1) ∧
    (getInfo dtDcb = .ok (commonStage dtDcb) ∧
     ∀ k ∈ clockTriggerKeys, List.lookup k (commonStage dtDcb) = none) :=
  ⟨⟨by decide, by decide⟩, getInfo_DT_terminal dtDcb (by decide) (by decide)⟩

theorem hwStage_skip (dcb : List Nat) (info : Info)
    (h4 : dcb.getD 4 0 ≠ 4) (h5 : dcb.getD 4 0 ≠ 5) :
    hwStage dcb info = .ok info := by
  simp only [hwStage, hwStagePRTHW, hwStageTM1, if_neg h4, if_neg h5]

/-- C3 as amended: for every DCB buffer accepted by decode, the decoded
`on_off` field is taken from byte offset 21 (value 1 meaning "On", else
"Off") and `key_lock` from byte offset 22 (value 0 meaning "Unlock", else
"Lock") for every model except TM1; for model byte 5 (TM1) the source
instead reads `on_off` from offset 8 and `key_lock` from offset 9. -/
theorem getInfo_on_off_key_lock (dcb : List Nat) (info : Info)
    (H : getInfo dcb = .ok info) :
    List.lookup "on_off" info =
      some (.vS (onOffStr (dcb.getD (if dcb.getD 4 0 = 5 then 8 else 21) 0))) ∧
    List.lookup "key_lock" info =
      some (.vS (keyLockStr (dcb.getD (if dcb.getD 4 0 = 5 then 9 else 22) 0))) := by
  have hoo : (if dcb.getD 4 0 = 5 then 8 else 21) = ooOf (dcb.getD 4 0) := rfl
  have hkl : (if dcb.getD 4 0 = 5 then 9 else 22) = klOf (dcb.getD 4 0) := rfl
  rw [hoo, hkl]
  unfold getInfo at H
  split at H
  · exact absurd H (by simp)
  · split at H
    · injection H with h
      subst h
      exact ⟨commonStage_on_off dcb, commonStage_key_lock dcb⟩
    · split at H
      · exact absurd H (by simp)
      · split at H
        · exact absurd H (by simp)
        · next i1 heq1 =>
          split at H
          · exact absurd H (by simp)
          · next i2 heq2 =>
            split at H
            · exact absurd H (by simp)
            · next i3 heq3 =>
              have p1oo := clockStage_pres dcb (commonStage dcb) i1 "on_off" heq1 (by decide)
              have p1kl := clockStage_pres dcb (commonStage dcb) i1 "key_lock" heq1 (by decide)
              have p2oo := trigStage_pres dcb i1 i2 "on_off" heq2 (by decide)
              have p2kl := trigStage_pres dcb i1 i2 "key_lock" heq2 (by decide)
              have p3oo := hwStage_pres dcb i2 i3 "on_off" heq3 (by decide)
              have p3kl := hwStage_pres dcb i2 i3 "key_lock" heq3 (by decide)
              split at H
              · injection H with h
                subst h
                rw [p3oo, p3kl, p2oo, p2kl, p1oo, p1kl]
                exact ⟨commonStage_on_off dcb, commonStage_key_lock dcb⟩
              · split at H
                · exact absurd H (by simp)
                · have p4oo := sevenDayStage_pres dcb i3 info "on_off" H (by decide)
                  have p4kl := sevenDayStage_pres dcb i3 info "key_lock" H (by decide)
                  rw [p4oo, p4kl, p3oo, p3kl, p2oo, p2kl, p1oo, p1kl]
                  exact ⟨commonStage_on_off dcb, commonStage_key_lock dcb⟩

/-- C3 counterexample: the 58-byte TM1 buffer `tm1Dcb` is accepted by
decode, its byte at offset 21 is 1, yet the decoded `on_off` value is
"Off" (and not "On"), because for TM1 the source reads `on_off` from byte
offset 8, which is 0 here. -/
theorem getInfo_on_off_key_lock_cex :
    getInfo tm1Dcb = .ok (decodeOr tm1Dcb) ∧
    tm1Dcb.getD 21 0 = 1 ∧
    List.lookup "on_off" (decodeOr tm1Dcb) = some (.vS "Off") ∧
    ¬ List.lookup "on_off" (decodeOr tm1Dcb) = some (.vS "On") := by
  refine ⟨rfl, rfl, rfl, ?_⟩
  rw [show List.lookup "on_off" (decodeOr tm1Dcb) = some (.vS "Off") from rfl]
  simp

/-- Witness for C3 at the accepted 72-byte PRT buffer `prtDcb`. -/
theorem getInfo_on_off_key_lock_witness :
    getInfo prtDcb = .ok (decodeOr prtDcb) ∧
    (List.lookup "on_off" (decodeOr prtDcb) =
       some (.vS (onOffStr (prtDcb.getD (if prtDcb.getD 4 0 = 5 then 8 else 21) 0))) ∧
     List.lookup "key_lock" (decodeOr prtDcb) =
       some (.vS (keyLockStr (prtDcb.getD (if prtDcb.getD 4 0 = 5 then 9 else 22) 0)))) :=
  ⟨rfl, getInfo_on_off_key_lock prtDcb (decodeOr prtDcb) rfl⟩

/-- C5: for every DCB buffer with model byte 2 (PRT) and program-mode byte
0 (2/5 mode) that decode accepts, the decoded record includes
`weekday_triggers` and `weekend_triggers` but none of
`mon_triggers`..`sun_triggers`; moreover decoding the concrete buffer
`prtDcb` (with bytes dcb[4]=2, dcb[16]=0, dcb[21]=1) yields model "PRT",
program_mode "2/5 mode" and on_off "On". -/
theorem getInfo_PRT_twofive :
    (∀ (dcb : List Nat) (info : Info), getInfo dcb = .ok info →
      dcb.getD 4 0 = 2 → dcb.getD 16 0 = 0 →
      (List.lookup "weekday_triggers" info).isSome ∧
      (List.lookup "weekend_triggers" info).isSome ∧
      List.lookup "mon_triggers" info = none ∧
      List.lookup "tue_triggers" info = none ∧
      List.lookup "wed_triggers" info = none ∧
      List.lookup "thu_triggers" info = none ∧
      List.lookup "fri_triggers" info = none ∧
      List.lookup "sat_triggers" info = none ∧
      List.lookup "sun_triggers" info = none) ∧
    (getInfo prtDcb = .ok (decodeOr prtDcb) ∧
     List.lookup "model" (decodeOr prtDcb) = some (.vS "PRT") ∧
     List.lookup "program_mode" (decodeOr prtDcb) = some (.vS "2/5 mode") ∧
     List.lookup "on_off" (decodeOr prtDcb) = some (.vS "On")) := by
  constructor
  · intro dcb info H h4 h16
    unfold getInfo at H
    split at H
    · exact absurd H (by simp)
    · split at H
      · next hc => omega
      · split at H
        · exact absurd H (by simp)
        · split at H
          · exact absurd H (by simp)
          · next i1 heq1 =>
            split at H
            · exact absurd H (by simp)
            · next i2 heq2 =>
              split at H
              · exact absurd H (by simp)
              · next i3 heq3 =>
                -- model byte is 2, so the hot-water stage is a no-op
                rw [hwStage_skip dcb i2 (by omega) (by omega)] at heq3
                injection heq3 with h3
                subst h3
                -- the 2/5-mode early return is taken
                split at H
                · injection H with h
                  subst h
                  -- the trigger stage appended the two groups to i1
                  simp only [trigStage, h4] at heq2
                  rw [if_pos (by omega)] at heq2
                  split at heq2
                  · injection heq2 with h2
                    subst h2
                    have hi1 : ∀ k, k ∈ clockTriggerKeys →
                        k ∉ ["year", "month", "day_of_month", "weekday", "hour",
                             "minute", "second", "clock"] →
                        List.lookup k i1 = none := by
                      intro k hkmem hck
                      rw [clockStage_pres dcb (commonStage dcb) i1 k heq1 hck]
                      exact commonStage_extra_none dcb k hkmem
                    refine ⟨?_, ?_, ?_, ?_, ?_, ?_, ?_, ?_, ?_⟩
                    · rw [lookup_append_eq, hi1 _ (by decide) (by decide)]
                      simp [List.lookup]
                    · rw [lookup_append_eq, hi1 _ (by decide) (by decide)]
                      simp [List.lookup]
                    all_goals rw [lookup_append_pres _ _ _ (by simp [List.lookup])]
                    all_goals exact hi1 _ (by decide) (by decide)
                  · exact absurd heq2 (by simp)
                  · exact absurd heq2 (by simp)
                · next hpm =>
                  refine absurd ?_ hpm
                  rw [h4]
                  exact h16
  · exact ⟨rfl, rfl, rfl, rfl⟩

/-- Witness for C5 at the accepted 72-byte PRT buffer `prtDcb`. -/
theorem getInfo_PRT_twofive_witness :
    (getInfo prtDcb = .ok (decodeOr prtDcb) ∧ prtDcb.getD 4 0 = 2 ∧ prtDcb.getD 16 0 = 0) ∧
    ((List.lookup "weekday_triggers" (decodeOr prtDcb)).isSome ∧
     (List.lookup "weekend_triggers" (decodeOr prtDcb)).isSome ∧
     List.lookup "mon_triggers" (decodeOr prtDcb) = none ∧
     List.lookup "tue_triggers" (decodeOr prtDcb) = none ∧
     List.lookup "wed_triggers" (decodeOr prtDcb) = none ∧
     List.lookup "thu_triggers" (decodeOr prtDcb) = none ∧
     List.lookup "fri_triggers" (decodeOr prtDcb) = none ∧
     List.lookup "sat_triggers" (decodeOr prtDcb) = none ∧
     List.lookup "sun_triggers" (decodeOr prtDcb) = none) :=
  ⟨⟨rfl, rfl, rfl⟩, getInfo_PRT_twofive.1 prtDcb (decodeOr prtDcb) rfl rfl rfl⟩

/-- C1: for every received response byte sequence (long enough for all the
indexed header bytes to exist), the parser strips the last two bytes as the
checksum (low, then high), fails `checksumMismatch` when the checksum
recomputed over the remainder differs, then fails `unexpectedFrameType`
when the first remaining byte is not 0x94, then fails `frameLengthMismatch`
when the little-endian 16-bit value at bytes 1-2 does not equal the
remaining length plus 2, then fails `wrongPin` when the little-endian
16-bit DCB length at bytes 5-6 is exactly 0, then fails
`dcbLengthMismatch` when that DCB length is not the frame length minus 9,
and on success returns the DCB start from bytes 3-4 with the bytes from
offset 7 onward as the payload. -/
theorem receiveDcb_spec (data : List Nat) (h : 9 ≤ data.length) :
    (¬(data.getD (data.length - 1) 0 = (CRC16 (data.take (data.length - 2))).2 ∧ data.getD (data.length - 2) 0 = (CRC16 (data.take (data.length - 2))).1) →
      receiveDcb data = .error .checksumMismatch) ∧
    ((data.getD (data.length - 1) 0 = (CRC16 (data.take (data.length - 2))).2 ∧ data.getD (data.length - 2) 0 = (CRC16 (data.take (data.length - 2))).1) →
      ((data.take (data.length - 2)).getD 0 0 ≠ 0x94 → receiveDcb data = .error .unexpectedFrameType) ∧
      ((data.take (data.length - 2)).getD 0 0 = 0x94 →
        (((data.take (data.length - 2)).getD 2 0 <<< 8 ||| (data.take (data.length - 2)).getD 1 0) ≠ (data.take (data.length - 2)).length + 2 →
          receiveDcb data = .error .frameLengthMismatch) ∧
        (((data.take (data.length - 2)).getD 2 0 <<< 8 ||| (data.take (data.length - 2)).getD 1 0) = (data.take (data.length - 2)).length + 2 →
          (((data.take (data.length - 2)).getD 6 0 <<< 8 ||| (data.take (data.length - 2)).getD 5 0) = 0 → receiveDcb data = .error .wrongPin) ∧
          (((data.take (data.length - 2)).getD 6 0 <<< 8 ||| (data.take (data.length - 2)).getD 5 0) ≠ 0 →
            ((((data.take (data.length - 2)).getD 6 0 <<< 8 ||| (data.take (data.length - 2)).getD 5 0) : Int) ≠ (((data.take (data.length - 2)).getD 2 0 <<< 8 ||| (data.take (data.length - 2)).getD 1 0) : Int) - 9 →
              receiveDcb data = .error .dcbLengthMismatch) ∧
            ((((data.take (data.length - 2)).getD 6 0 <<< 8 ||| (data.take (data.length - 2)).getD 5 0) : Int) = (((data.take (data.length - 2)).getD 2 0 <<< 8 ||| (data.take (data.length - 2)).getD 1 0) : Int) - 9 →
              receiveDcb data = .ok (((data.take (data.length - 2)).getD 4 0 <<< 8 ||| (data.take (data.length - 2)).getD 3 0), (data.take (data.length - 2)).drop 7)))))) := by
  have hlen : (data.take (data.length - 2)).length = data.length - 2 := by
    rw [List.length_take]
    omega
  simp only [receiveDcb]
  have h2 : ¬(data.length < 2) := by omega
  have h1f : ¬((data.take (data.length - 2)).length < 1) := by omega
  have h3f : ¬((data.take (data.length - 2)).length < 3) := by omega
  have h7f : ¬((data.take (data.length - 2)).length < 7) := by omega
  refine ⟨?_, ?_⟩
  · intro hcrc
    rw [if_neg h2, if_pos hcrc]
  · intro hcrc
    refine ⟨?_, ?_⟩
    · intro h94
      rw [if_neg h2, if_neg (not_not_intro hcrc), if_neg h1f, if_pos h94]
    · intro h94
      refine ⟨?_, ?_⟩
      · intro hfl
        rw [if_neg h2, if_neg (not_not_intro hcrc), if_neg h1f,
            if_neg (not_not_intro h94), if_neg h3f, if_pos hfl]
      · intro hfl
        refine ⟨?_, ?_⟩
        · intro hdl0
          rw [if_neg h2, if_neg (not_not_intro hcrc), if_neg h1f,
              if_neg (not_not_intro h94), if_neg h3f, if_neg (not_not_intro hfl),
              if_neg h7f, if_pos hdl0]
        · intro hdl0
          refine ⟨?_, ?_⟩
          · intro hdlm
            rw [if_neg h2, if_neg (not_not_intro hcrc), if_neg h1f,
                if_neg (not_not_intro h94), if_neg h3f, if_neg (not_not_intro hfl),
                if_neg h7f, if_neg hdl0, if_pos hdlm]
          · intro hdlm
            rw [if_neg h2, if_neg (not_not_intro hcrc), if_neg h1f,
                if_neg (not_not_intro h94), if_neg h3f, if_neg (not_not_intro hfl),
                if_neg h7f, if_neg hdl0, if_neg (not_not_intro hdlm)]

/-- Witness for C1 at the 11-byte all-zero buffer `zeroResp`. -/
theorem receiveDcb_spec_witness :
    9 ≤ zeroResp.length ∧
    ((¬(zeroResp.getD (zeroResp.length - 1) 0 = (CRC16 (zeroResp.take (zeroResp.length - 2))).2 ∧ zeroResp.getD (zeroResp.length - 2) 0 = (CRC16 (zeroResp.take (zeroResp.length - 2))).1) →
      receiveDcb zeroResp = .error .checksumMismatch) ∧
    ((zeroResp.getD (zeroResp.length - 1) 0 = (CRC16 (zeroResp.take (zeroResp.length - 2))).2 ∧ zeroResp.getD (zeroResp.length - 2) 0 = (CRC16 (zeroResp.take (zeroResp.length - 2))).1) →
      ((zeroResp.take (zeroResp.length - 2)).getD 0 0 ≠ 0x94 → receiveDcb zeroResp = .error .unexpectedFrameType) ∧
      ((zeroResp.take (zeroResp.length - 2)).getD 0 0 = 0x94 →
        (((zeroResp.take (zeroResp.length - 2)).getD 2 0 <<< 8 ||| (zeroResp.take (zeroResp.length - 2)).getD 1 0) ≠ (zeroResp.take (zeroResp.length - 2)).length + 2 →
          receiveDcb zeroResp = .error .frameLengthMismatch) ∧
        (((zeroResp.take (zeroResp.length - 2)).getD 2 0 <<< 8 ||| (zeroResp.take (zeroResp.length - 2)).getD 1 0) = (zeroResp.take (zeroResp.length - 2)).length + 2 →
          (((zeroResp.take (zeroResp.length - 2)).getD 6 0 <<< 8 ||| (zeroResp.take (zeroResp.length - 2)).getD 5 0) = 0 → receiveDcb zeroResp = .error .wrongPin) ∧
          (((zeroResp.take (zeroResp.length - 2)).getD 6 0 <<< 8 ||| (zeroResp.take (zeroResp.length - 2)).getD 5 0) ≠ 0 →
            ((((zeroResp.take (zeroResp.length - 2)).getD 6 0 <<< 8 ||| (zeroResp.take (zeroResp.length - 2)).getD 5 0) : Int) ≠ (((zeroResp.take (zeroResp.length - 2)).getD 2 0 <<< 8 ||| (zeroResp.take (zeroResp.length - 2)).getD 1 0) : Int) - 9 →
              receiveDcb zeroResp = .error .dcbLengthMismatch) ∧
            ((((zeroResp.take (zeroResp.length - 2)).getD 6 0 <<< 8 ||| (zeroResp.take (zeroResp.length - 2)).getD 5 0) : Int) = (((zeroResp.take (zeroResp.length - 2)).getD 2 0 <<< 8 ||| (zeroResp.take (zeroResp.length - 2)).getD 1 0) : Int) - 9 →
              receiveDcb zeroResp = .ok (((zeroResp.take (zeroResp.length - 2)).getD 4 0 <<< 8 ||| (zeroResp.take (zeroResp.length - 2)).getD 3 0), (zeroResp.take (zeroResp.length - 2)).drop 7))))))) :=
  ⟨by decide, receiveDcb_spec zeroResp (by decide)⟩

/-- C2 counterexample: `set_value("switch_differential", 5)` does not fail
with the unsupported-field error; the source has an explicit write branch
for it and sends `[5]` to DCB address 6. -/
theorem setValue_switch_differential_cex :
    setValue now0 "switch_differential" (.vInt 5) = .ok (6, [5]) ∧
    ¬ setValue now0 "switch_differential" (.vInt 5) = .error .unknownField := by
  refine ⟨rfl, ?_⟩
  rw [show setValue now0 "switch_differential" (.vInt 5) = .ok (6, [5]) from rfl]
  simp

/-- C2 as amended: `set_value` fails the unsupported-field error exactly for
names outside its dispatch chain — in particular every write to
`program_mode` fails — but `switch_differential`, `floor_max_limit_enable`
and `weekday_triggers` do have write branches (the last for every model,
including TM1, since the dispatch never consults a model), so those writes
are encoded rather than rejected. -/
theorem setValue_writable_set :
    (∀ (now : Tm) (v : HmValue), setValue now "program_mode" v = .error .unknownField) ∧
    (∀ now : Tm, setValue now "switch_differential" (.vInt 5) = .ok (6, [5])) ∧
    (∀ now : Tm, setValue now "floor_max_limit_enable" (.vInt 1) = .ok (20, [1])) ∧
    (∀ now : Tm, setValue now "weekday_triggers" (.vBytes trigBytes) = .ok (47, trigBytes)) := by
  refine ⟨?_, ?_, ?_, ?_⟩
  · intro now v
    simp [setValue]
  · intro now
    rfl
  · intro now
    rfl
  · intro now
    rfl

/-- C4 counterexample: with the system clock at 2026-10-12 (a Monday)
09:30:00, `set_value("clock", 60)` writes `[26, 10, 12, 2, 9, 30, 0]` to
address 43 — the supplied value 60 is not applied as a minute offset (the
hour byte stays 9, not 10) and the weekday byte is 2, not the ISO Monday
value 1, because `strftime("%w")` counts Sunday as 0. -/
theorem setClock_cex :
    setValue now0 "clock" (.vInt 60) = .ok (43, [26, 10, 12, 2, 9, 30, 0]) ∧
    ¬ setValue now0 "clock" (.vInt 60) = .ok (43, [26, 10, 12, 1, 10, 30, 0]) := by
  refine ⟨rfl, ?_⟩
  rw [show setValue now0 "clock" (.vInt 60) = .ok (43, [26, 10, 12, 2, 9, 30, 0]) from rfl]
  simp

/-- C4 as amended: `set_value` with name "clock" ignores the supplied value
entirely and writes the querying system's current time to the device clock
address 43, encoded as the 7 bytes (year mod 100, month, day, w + 1 where
w is the `strftime("%w")` weekday with Sunday = 0 — hence 1 for Sunday
through 7 for Saturday, not the ISO Monday-is-1 numbering — hour, minute,
second). -/
theorem setClock_amended (now : Tm) (v : HmValue) :
    setValue now "clock" v =
      .ok (43, [now.year % 100, now.month, now.day,
                pyDowW now.year now.month now.day + 1,
                now.hour, now.minute, now.second]) := by
  simp [setValue, setClock]

/-- C8: for every enumerated writable field, `set_value` rejects any value
that is not one of the field's defined labels with `invalidFieldValue`,
returning the error before any write is produced. -/
theorem setValue_enum_reject (now : Tm) (v : HmValue) :
    (¬(pyEq v (.vStr "On") ∨ pyEq v (.vStr "Off")) →
      setValue now "on_off" v = .error .invalidFieldValue) ∧
    (¬(pyEq v (.vStr "Lock") ∨ pyEq v (.vStr "Unlock")) →
      setValue now "key_lock" v = .error .invalidFieldValue) ∧
    (¬(pyEq v (.vStr "Frost protection mode") ∨
       pyEq v (.vStr "Heating mode (normal mode)")) →
      setValue now "run_mode" v = .error .invalidFieldValue) ∧
    (¬(pyEq v (.vStr "off") ∨ pyEq v (.vStr "on")) →
      setValue now "away_mode" v = .error .invalidFieldValue) ∧
    (¬(pyEq v (.vStr "off") ∨ pyEq v (.vStr "on") ∨ pyEq v (.vStr "prog")) →
      setValue now "hot_water_state" v = .error .invalidFieldValue) ∧
    (¬(pyEq v (.vBool true) ∨ pyEq v (.vStr "True") ∨ pyEq v (.vStr "1") ∨
       pyEq v (.vInt 1) ∨ pyEq v (.vBool false) ∨ pyEq v (.vStr "False") ∨
       pyEq v (.vStr "0") ∨ pyEq v (.vInt 0)) →
      setValue now "floor_max_limit_enable" v = .error .invalidFieldValue) := by
  refine ⟨?_, ?_, ?_, ?_, ?_, ?_⟩ <;>
    · intro hv
      simp only [not_or] at hv
      simp only [setValue]
      simp_all

/-- Witness for C8: `set_value("on_off", "Sideways")` fails
`invalidFieldValue`. -/
theorem setValue_enum_reject_witness :
    ¬(pyEq (.vStr "Sideways") (.vStr "On") ∨ pyEq (.vStr "Sideways") (.vStr "Off")) ∧
    setValue now0 "on_off" (.vStr "Sideways") = .error .invalidFieldValue :=
  ⟨by decide, (setValue_enum_reject now0 (.vStr "Sideways")).1 (by decide)⟩

/-- C10: `set_value` with name "weekend_hw_triggers" always fails the
unsupported-field error, although `get_info` returns a
`weekend_hw_triggers` entry for PRTHW and TM1 buffers; the dispatch chain
tests the name "weekday_hw_triggers" twice, so every successful
`weekday_hw_triggers` write goes to address 71 (the second branch,
targeting address 87, is unreachable), and no branch handles
"weekend_hw_triggers". -/
theorem setValue_weekend_hw_unsupported :
    (∀ (now : Tm) (v : HmValue),
       setValue now "weekend_hw_triggers" v = .error .unknownField) ∧
    (∀ (now : Tm) (v : HmValue) (bs : List Nat), bytearrayOf v = .ok bs →
       setValue now "weekday_hw_triggers" v = .ok (71, bs)) ∧
    getInfo prthwDcb = .ok (decodeOr prthwDcb) ∧
    (List.lookup "weekend_hw_triggers" (decodeOr prthwDcb)).isSome ∧
    getInfo tm1Dcb = .ok (decodeOr tm1Dcb) ∧
    (List.lookup "weekend_hw_triggers" (decodeOr tm1Dcb)).isSome := by
  refine ⟨?_, ?_, rfl, rfl, rfl, rfl⟩
  · intro now v
    simp [setValue]
  · intro now v bs hbv
    simp [setValue, hbv]

/-- Witness for C10 at the concrete hot-water trigger payload
`trigHwBytes`. -/
theorem setValue_weekend_hw_unsupported_witness :
    bytearrayOf (.vBytes trigHwBytes) = .ok trigHwBytes ∧
    setValue now0 "weekday_hw_triggers" (.vBytes trigHwBytes) = .ok (71, trigHwBytes) :=
  ⟨rfl, setValue_weekend_hw_unsupported.2.1 now0 (.vBytes trigHwBytes) trigHwBytes rfl⟩

end HeatmiserWifi
